import Mathlib

/-!
Shallow embedding of the i73 decoration layer: the `BlockMatcher` predicate
(src/src/matcher.rs), the cactus and plant decorators
(src/src/decorator/clump/cactus.rs, src/src/decorator/clump/plant.rs) and the
`Surface`/`Stack` stratification model (src/src/surface.rs).

External collaborators (the `vocs` quad/position primitives and the `java_rand`
random stream) are modelled by their contracts: a quad is a bounded 3D region
of blocks with `get`, `set_immediate` and bounds-checked `offset`; the random
stream delivers, per draw, a value uniformly in `[0, bound)`, modelled as an
arbitrary infinite stream of raw naturals reduced modulo the bound (every
in-range output sequence is realisable by some stream, and every draw advances
the stream by exactly one position, which makes draw consumption observable).
-/

namespace I73

/-- A position inside a quad: integer 3D coordinates (`vocs::position::QuadPosition`). -/
structure Pos where
  x : Nat
  y : Nat
  z : Nat
deriving DecidableEq, Repr

/-- A bounded 3D region of blocks (`vocs::view::QuadMut`).  The fixed size of
the region is carried as the three bounds; `data` gives the block stored at
each coordinate triple (only in-bounds coordinates are ever consulted). -/
structure Quad (B : Type) where
  sx : Nat
  sy : Nat
  sz : Nat
  data : Nat → Nat → Nat → B

/-- `QuadMut::get`: read the block at a position. -/
def Quad.get {B : Type} (q : Quad B) (p : Pos) : B :=
  q.data p.x p.y p.z

/-- `QuadMut::set_immediate`: write a block at a position, visible to later
reads in the same call. -/
def Quad.set {B : Type} (q : Quad B) (p : Pos) (b : B) : Quad B :=
  { q with data := fun x y z => if x = p.x ∧ y = p.y ∧ z = p.z then b else q.data x y z }

/-- `QuadPosition::offset`: move a position by a direction vector; yields the
moved position when it is still inside the quad's bounds and `none` otherwise
(no wraparound, no clamping). -/
def Quad.offset {B : Type} (q : Quad B) (p : Pos) (dx dy dz : Int) : Option Pos :=
  let nx : Int := (p.x : Int) + dx
  let ny : Int := (p.y : Int) + dy
  let nz : Int := (p.z : Int) + dz
  if 0 ≤ nx ∧ nx < (q.sx : Int) ∧ 0 ≤ ny ∧ ny < (q.sy : Int) ∧ 0 ≤ nz ∧ nz < (q.sz : Int) then
    some ⟨nx.toNat, ny.toNat, nz.toNat⟩
  else
    none

/-- The `java_rand::Random` stream, abstracted to its contract: an infinite
stream of raw draws together with a cursor.  `next_u32_bound` consumes one raw
draw and reduces it modulo the bound, giving a value in `[0, bound)`. -/
structure Random where
  stream : Nat → Nat
  idx : Nat

/-- `Random::next_u32_bound`: one draw in `[0, bound)`, advancing the cursor. -/
def Random.next_u32_bound (r : Random) (bound : Nat) : Nat × Random :=
  (r.stream r.idx % bound, ⟨r.stream, r.idx + 1⟩)

/-- `BlockMatcher` (src/src/matcher.rs): a set of block identities plus a
blacklist flag.  The `HashSet` is modelled as a list queried by membership. -/
structure BlockMatcher (B : Type) [DecidableEq B] where
  blocks : List B
  blacklist : Bool

namespace BlockMatcher

variable {B : Type} [DecidableEq B]

/-- `BlockMatcher::all`: empty set, blacklist. -/
def all : BlockMatcher B := ⟨[], true⟩

/-- `BlockMatcher::none`: empty set, whitelist. -/
def none : BlockMatcher B := ⟨[], false⟩

/-- `BlockMatcher::is`: singleton whitelist. -/
def is (block : B) : BlockMatcher B := ⟨[block], false⟩

/-- `BlockMatcher::is_not`: singleton blacklist. -/
def is_not (block : B) : BlockMatcher B := ⟨[block], true⟩

/-- `BlockMatcher::include`: arbitrary whitelist. -/
def include' (blocks : List B) : BlockMatcher B := ⟨blocks, false⟩

/-- `BlockMatcher::exclude`: arbitrary blacklist. -/
def exclude (blocks : List B) : BlockMatcher B := ⟨blocks, true⟩

/-- `BlockMatcher::matches`: membership XOR blacklist. -/
def matches' (m : BlockMatcher B) (block : B) : Bool :=
  (decide (block ∈ m.blocks)) ^^ m.blacklist

end BlockMatcher

/-- The decorator error type.  Modelled from the spec: `decorator/mod.rs` (the
definition of `Decorator` and its `Result` alias) is not under src/; §7 of the
spec gives the taxonomy a single kind, "invalid decoration configuration". -/
inductive DecoratorError where
  | invalidConfiguration
deriving DecidableEq, Repr

/-- The outcome of one `Decorator::generate` call: the `Result` value together
with the final states of the two `&mut` parameters (quad and random stream). -/
structure GenResult (B : Type) where
  result : Except DecoratorError Unit
  quad : Quad B
  rng : Random

/-- `CactusBlocks` (src/src/decorator/clump/cactus.rs): the four matcher/value
fields configuring a cactus decorator. -/
structure CactusBlocks (B : Type) [DecidableEq B] where
  replace : BlockMatcher B
  base : BlockMatcher B
  solid : BlockMatcher B
  block : B

/-- `CactusBlocks::check` (src/src/decorator/clump/cactus.rs lines 47-82):
the candidate must match `replace`; each horizontal neighbor that exists must
not match `solid`; the cell below must exist and match `base`. -/
def CactusBlocks.check {B : Type} [DecidableEq B]
    (c : CactusBlocks B) (quad : Quad B) (position : Pos) : Bool :=
  if ¬ c.replace.matches' (quad.get position) then false
  else if (quad.offset position (-1) 0 0).elim false
      (fun minus_x => c.solid.matches' (quad.get minus_x)) then false
  else if (quad.offset position 1 0 0).elim false
      (fun plus_x => c.solid.matches' (quad.get plus_x)) then false
  else if (quad.offset position 0 0 (-1)).elim false
      (fun minus_z => c.solid.matches' (quad.get minus_z)) then false
  else if (quad.offset position 0 0 1).elim false
      (fun plus_z => c.solid.matches' (quad.get plus_z)) then false
  else
    match quad.offset position 0 (-1) 0 with
    | Option.none => false
    | Option.some below => c.base.matches' (quad.get below)

/-- `CactusSettings` (src/src/decorator/clump/cactus.rs lines 85-91). -/
structure CactusSettings where
  base_height : Nat
  add_height : Nat

/-- `CactusSettings::default` (src/src/decorator/clump/cactus.rs lines 93-100). -/
def CactusSettings.default : CactusSettings :=
  { base_height := 1, add_height := 2 }

/-- `CactusDecorator` (src/src/decorator/clump/cactus.rs lines 8-11). -/
structure CactusDecorator (B : Type) [DecidableEq B] where
  blocks : CactusBlocks B
  settings : CactusSettings

/-- The growth loop of `CactusDecorator::generate` (lines 24-33): `n` more
iterations starting from current position `p`.  Each iteration moves one cell
up (stopping with the quad as is when that leaves the bounds), then writes
`blocks.block` there when `check` passes, and continues either way. -/
def cactusGrow {B : Type} [DecidableEq B]
    (blocks : CactusBlocks B) (quad : Quad B) (p : Pos) : Nat → Quad B
  | 0 => quad
  | n + 1 =>
    match quad.offset p 0 1 0 with
    | Option.none => quad
    | Option.some p' =>
      cactusGrow blocks
        (if blocks.check quad p' then quad.set p' blocks.block else quad) p' n

/-- `CactusDecorator::generate` (src/src/decorator/clump/cactus.rs lines
14-36): no-op success unless the origin matches `replace`; otherwise two
bounded draws fix the height and the growth loop runs. -/
def CactusDecorator.generate {B : Type} [DecidableEq B]
    (d : CactusDecorator B) (quad : Quad B) (rng : Random) (position : Pos) :
    GenResult B :=
  if ¬ d.blocks.replace.matches' (quad.get position) then
    ⟨Except.ok (), quad, rng⟩
  else
    let height := rng.next_u32_bound (d.settings.add_height + 1)
    let rng := height.2
    let height2 := rng.next_u32_bound (height.1 + 1)
    let rng := height2.2
    let height := d.settings.base_height + height2.1
    ⟨Except.ok (), cactusGrow d.blocks quad position height, rng⟩

/-- `PlantDecorator` (src/src/decorator/clump/plant.rs lines 10-14): in
plant.rs `BlockMatcher` is a trait bound, so the two matchers are arbitrary
predicates on blocks. -/
structure PlantDecorator (B : Type) where
  block : B
  base : B → Bool
  replace : B → Bool

/-- `PlantDecorator::generate` (src/src/decorator/clump/plant.rs lines 17-34):
no-op success unless the target matches `replace` and the cell below exists
and matches `base`; otherwise write `block` at the target. -/
def PlantDecorator.generate {B : Type}
    (d : PlantDecorator B) (quad : Quad B) (rng : Random) (position : Pos) :
    GenResult B :=
  if ¬ d.replace (quad.get position) then
    ⟨Except.ok (), quad, rng⟩
  else
    match quad.offset position 0 (-1) 0 with
    | Option.some below =>
      if ¬ d.base (quad.get below) then
        ⟨Except.ok (), quad, rng⟩
      else
        ⟨Except.ok (), quad.set position d.block, rng⟩
    | Option.none => ⟨Except.ok (), quad, rng⟩

/-- The height computed by `CactusDecorator::generate` (lines 19-20) from the
two raw stream values `v1, v2` at the cursor: the first draw is bounded by
`add_height + 1`, the second by the first result plus one, and `base_height`
is added to the second result. -/
def cactusHeight (s : CactusSettings) (v1 v2 : Nat) : Nat :=
  s.base_height + v2 % (v1 % (s.add_height + 1) + 1)

/-- The probability mass function of the sampled height when each
`next_u32_bound` draw is uniform on `[0, bound)`: the first raw value ranges
uniformly over `[0, add_height]`, and given it, the second ranges uniformly
over `[0, r1]`. -/
def cactusHeightPMF (s : CactusSettings) (h : Nat) : ℚ :=
  ∑ v1 in Finset.range (s.add_height + 1),
    ∑ v2 in Finset.range (v1 % (s.add_height + 1) + 1),
      (1 / (((s.add_height + 1 : Nat)) : ℚ))
        * (1 / (((v1 % (s.add_height + 1) + 1 : Nat)) : ℚ))
        * (if cactusHeight s v1 v2 = h then 1 else 0)

/-- The distribution the spec contrasts against: a single uniform draw of the
height over `[base_height, base_height + add_height]` (spec §4.3). -/
def uniformHeightPMF (s : CactusSettings) (h : Nat) : ℚ :=
  if s.base_height ≤ h ∧ h ≤ s.base_height + s.add_height then
    1 / (((s.add_height + 1 : Nat)) : ℚ)
  else 0

/-- `SEA_COORD` (src/src/surface.rs line 4). -/
def SEA_COORD : Nat := 63

/-- `BEACH_LOW` (src/src/surface.rs line 5). -/
def BEACH_LOW : Nat := SEA_COORD - 3

/-- `BEACH_HIGH` (src/src/surface.rs line 6). -/
def BEACH_HIGH : Nat := SEA_COORD + 2

/-- `Surface` (src/src/surface.rs lines 8-11). -/
structure Surface (B : Type) where
  top : Option B
  fill : B
deriving DecidableEq, Repr

/-- The external `Biome` collaborator, reduced to the one capability this core
consumes: a surface descriptor lookup (spec §6). -/
structure Biome (B : Type) where
  surface : Surface B

/-- Modelled from the spec: the concrete block identities that surface.rs
leaves as unresolved placeholders (the commented-out `Block::Sand`,
`Block::Gravel` and `Block::Stone`); §9 directs implementers to inject them
as configuration rather than hardcode a palette. -/
structure SurfaceBlocks (B : Type) where
  sand : B
  gravel : B
  stone : B

/-- `Beach` (src/src/surface.rs lines 13-17). -/
inductive Beach where
  | Sand
  | Gravel
  | Biome
deriving DecidableEq, Repr

/-- `Beach::surface` (src/src/surface.rs lines 19-28).  Modelled from the
spec: the body is `unimplemented!()` over commented-out reference code; §4.5
gives Sand `{top: sand, fill: sand}`, Gravel `{top: none, fill: gravel}`, and
Biome deferring to the biome's own surface description. -/
def Beach.surface {B : Type} (b : Beach) (blocks : SurfaceBlocks B)
    (biome : I73.Biome B) : Surface B :=
  match b with
  | Beach.Sand => ⟨Option.some blocks.sand, blocks.sand⟩
  | Beach.Gravel => ⟨Option.none, blocks.gravel⟩
  | Beach.Biome => biome.surface

/-- `Stack` (src/src/surface.rs lines 30-34). -/
structure Stack (B : Type) where
  depth : Int
  beach : Beach
  biome : I73.Biome B

/-- `Stack::surface` (src/src/surface.rs lines 36-54).  The branch selection
and the final `y < SEA_COORD` adjustment are in the source; the three
`unimplemented!()` bodies are modelled from the spec and the commented-out
reference code: deep fill `{top: none, fill: stone}` when `depth <= 0`, the
biome-top/inherited-fill surface otherwise outside the beach band, and the
post-adjustment `surface.top = Some(surface.fill)` below sea level. -/
def Stack.surface {B : Type} (st : Stack B) (blocks : SurfaceBlocks B)
    (y : Nat) (last : Surface B) : Surface B :=
  let surface :=
    if st.depth ≤ 0 then
      ⟨Option.none, blocks.stone⟩
    else if BEACH_LOW ≤ y ∧ y ≤ BEACH_HIGH then
      st.beach.surface blocks st.biome
    else
      ⟨st.biome.surface.top, last.fill⟩
  if y < SEA_COORD then
    { surface with top := Option.some surface.fill }
  else
    surface

/-- Concrete fixture: a 1×5×1 column quad over `Nat` blocks, sand (1) at the
bottom and air (0) above. -/
def quadW : Quad Nat := ⟨1, 5, 1, fun _ y _ => if y = 0 then 1 else 0⟩

/-- Concrete fixture: cactus configuration replacing air (0), standing on
sand (1), blocked by solid (2), writing cactus (3). -/
def blocksW : CactusBlocks Nat :=
  ⟨BlockMatcher.is 0, BlockMatcher.is 1, BlockMatcher.is 2, 3⟩

/-- Concrete fixture: a cactus decorator with the default settings. -/
def dW : CactusDecorator Nat := ⟨blocksW, CactusSettings.default⟩

/-- Concrete fixture: a random stream. -/
def rngW : Random := ⟨fun n => n, 0⟩

/-- Concrete fixture: a plant decorator placing block 4 on sand (1) in air (0). -/
def plantW : PlantDecorator Nat := ⟨4, fun b => b = 1, fun b => b = 0⟩

/-- Concrete fixture: a stack one layer deep on a sand beach. -/
def stackW : Stack Nat := ⟨1, Beach.Sand, ⟨⟨Option.none, 7⟩⟩⟩

/-- Concrete fixture: injected surface placeholder blocks. -/
def sblocksW : SurfaceBlocks Nat := ⟨1, 2, 3⟩

/-- Concrete fixture: a previous surface. -/
def lastW : Surface Nat := ⟨Option.none, 9⟩

/-- Reading a quad after a write: the written position returns the new block,
every other position is untouched. -/
theorem Quad.get_set {B : Type} (q : Quad B) (p p' : Pos) (b : B) :
    (q.set p b).get p' = if p' = p then b else q.get p' := by
  simp only [Quad.get, Quad.set]
  by_cases h : p' = p
  · subst h; simp
  · rw [if_neg h, if_neg]
    intro ⟨h1, h2, h3⟩
    exact h (by cases p'; cases p; simp_all)

/-- C1: for every matcher and block, `matches(b) = contains(b) XOR blacklist`;
consequently `all` matches every block, `none` matches no block, `is x`
matches exactly `x` and `is_not x` matches everything except `x`. -/
theorem blockMatcher_matches_spec {B : Type} [DecidableEq B]
    (m : BlockMatcher B) (b x : B) :
    m.matches' b = ((decide (b ∈ m.blocks)) ^^ m.blacklist)
    ∧ (BlockMatcher.all (B := B)).matches' b = true
    ∧ (BlockMatcher.none (B := B)).matches' b = false
    ∧ ((BlockMatcher.is x).matches' b = true ↔ b = x)
    ∧ ((BlockMatcher.is_not x).matches' b = true ↔ b ≠ x) := by
  refine ⟨rfl, rfl, rfl, ?_, ?_⟩ <;>
    simp [BlockMatcher.matches', BlockMatcher.is, BlockMatcher.is_not]

/-- C2: `CactusBlocks::check` succeeds iff the candidate matches `replace`,
no existing horizontal neighbor (−X, +X, −Z, +Z) matches `solid` (an
out-of-bounds neighbor never causes failure), the cell below exists, and the
block below matches `base`. -/
theorem cactusBlocks_check_spec {B : Type} [DecidableEq B]
    (c : CactusBlocks B) (q : Quad B) (p : Pos) :
    c.check q p = true ↔
      c.replace.matches' (q.get p) = true
      ∧ (∀ p', q.offset p (-1) 0 0 = Option.some p' →
          c.solid.matches' (q.get p') = false)
      ∧ (∀ p', q.offset p 1 0 0 = Option.some p' →
          c.solid.matches' (q.get p') = false)
      ∧ (∀ p', q.offset p 0 0 (-1) = Option.some p' →
          c.solid.matches' (q.get p') = false)
      ∧ (∀ p', q.offset p 0 0 1 = Option.some p' →
          c.solid.matches' (q.get p') = false)
      ∧ ∃ below, q.offset p 0 (-1) 0 = Option.some below
          ∧ c.base.matches' (q.get below) = true := by
  rcases hmx : q.offset p (-1) 0 0 with _ | mx <;>
  rcases hpx : q.offset p 1 0 0 with _ | px <;>
  rcases hmz : q.offset p 0 0 (-1) with _ | mz <;>
  rcases hpz : q.offset p 0 0 1 with _ | pz <;>
  rcases hd : q.offset p 0 (-1) 0 with _ | below <;>
  simp [CactusBlocks.check, hmx, hpx, hmz, hpz, hd]

/-- C4: when the placement check fails at a level, the growth loop writes no
block at that level but still continues upward with the remaining
iterations — a failed check never terminates the loop. -/
theorem cactusGrow_skip_and_continue {B : Type} [DecidableEq B]
    (blocks : CactusBlocks B) (q : Quad B) (p p' : Pos) (n : Nat)
    (hup : q.offset p 0 1 0 = Option.some p')
    (hfail : blocks.check q p' = false) :
    cactusGrow blocks q p (n + 1) = cactusGrow blocks q p' n := by
  simp [cactusGrow, hup, hfail]

/-- C4 witness: at level `⟨0,3,0⟩` of the fixture column the check fails (no
base below), yet the loop continues from there with one fewer iteration. -/
theorem cactusGrow_skip_and_continue_witness :
    quadW.offset ⟨0, 2, 0⟩ 0 1 0 = Option.some ⟨0, 3, 0⟩
    ∧ blocksW.check quadW ⟨0, 3, 0⟩ = false
    ∧ cactusGrow blocksW quadW ⟨0, 2, 0⟩ 2 = cactusGrow blocksW quadW ⟨0, 3, 0⟩ 1 :=
  ⟨by decide, by decide,
    cactusGrow_skip_and_continue blocksW quadW ⟨0, 2, 0⟩ ⟨0, 3, 0⟩ 1
      (by decide) (by decide)⟩

/-- C5: when the upward offset leaves the quad, the growth loop stops at once
keeping the quad exactly as accumulated so far, and `CactusDecorator::generate`
never returns an error for any input. -/
theorem cactusGrow_oob_stop {B : Type} [DecidableEq B]
    (blocks : CactusBlocks B) (q : Quad B) (p : Pos) (n : Nat)
    (hup : q.offset p 0 1 0 = Option.none) :
    cactusGrow blocks q p (n + 1) = q
    ∧ ∀ (settings : CactusSettings) (q0 : Quad B) (rng : Random) (p0 : Pos),
        (CactusDecorator.generate ⟨blocks, settings⟩ q0 rng p0).result
          = Except.ok () := by
  refine ⟨by simp [cactusGrow, hup], ?_⟩
  intro settings q0 rng p0
  unfold CactusDecorator.generate
  split <;> rfl

/-- C5 witness: at the top of the fixture column (`y = 4` with height 5) the
upward offset is out of bounds, the loop keeps the quad, and `generate`
returns `Ok`. -/
theorem cactusGrow_oob_stop_witness :
    quadW.offset ⟨0, 4, 0⟩ 0 1 0 = Option.none
    ∧ cactusGrow blocksW quadW ⟨0, 4, 0⟩ 3 = quadW
    ∧ (CactusDecorator.generate ⟨blocksW, CactusSettings.default⟩ quadW rngW
        ⟨0, 1, 0⟩).result = Except.ok () :=
  ⟨by decide,
   (cactusGrow_oob_stop blocksW quadW ⟨0, 4, 0⟩ 2 (by decide)).1,
   (cactusGrow_oob_stop blocksW quadW ⟨0, 4, 0⟩ 2 (by decide)).2
     CactusSettings.default quadW rngW ⟨0, 1, 0⟩⟩

/-- C6: `PlantDecorator::generate` always returns `Ok` and never touches the
random stream; it writes the configured block exactly at the target position
when the target matches `replace` and an existing cell below matches `base`,
and otherwise leaves every position of the quad unchanged. -/
theorem plantDecorator_generate_spec {B : Type}
    (d : PlantDecorator B) (q : Quad B) (rng : Random) (p : Pos) :
    (d.generate q rng p).result = Except.ok ()
    ∧ (d.generate q rng p).rng = rng
    ∧ (d.generate q rng p).quad =
        (if d.replace (q.get p)
            && (q.offset p 0 (-1) 0).elim false (fun below => d.base (q.get below))
          then q.set p d.block else q)
    ∧ ∀ p' : Pos, ((d.generate q rng p).quad).get p' =
        if (d.replace (q.get p)
              && (q.offset p 0 (-1) 0).elim false (fun below => d.base (q.get below)))
            ∧ p' = p
          then d.block else q.get p' := by
  rcases hb : q.offset p 0 (-1) 0 with _ | below
  · refine ⟨?_, ?_, ?_, ?_⟩ <;>
      simp [PlantDecorator.generate, hb, Quad.get_set]
  · cases hr : d.replace (q.get p)
    · refine ⟨?_, ?_, ?_, ?_⟩ <;>
        simp [PlantDecorator.generate, hb, hr, Quad.get_set]
    · cases hsb : d.base (q.get below) <;>
        refine ⟨?_, ?_, ?_, ?_⟩ <;>
        simp [PlantDecorator.generate, hb, hr, hsb, Quad.get_set]

/-- C9: when the origin block does not match `blocks.replace`,
`CactusDecorator::generate` is a no-op success: it returns `Ok`, the quad is
unchanged, and the random stream is unchanged (no draw consumed). -/
theorem cactusDecorator_noop_on_unmatched_origin {B : Type} [DecidableEq B]
    (d : CactusDecorator B) (q : Quad B) (rng : Random) (p : Pos)
    (h : d.blocks.replace.matches' (q.get p) = false) :
    CactusDecorator.generate d q rng p = ⟨Except.ok (), q, rng⟩ := by
  simp [CactusDecorator.generate, h]

/-- C9 witness: the fixture origin `⟨0,0,0⟩` holds sand, which `replace` (air)
does not match, so `generate` returns the quad and stream untouched. -/
theorem cactusDecorator_noop_on_unmatched_origin_witness :
    blocksW.replace.matches' (quadW.get ⟨0, 0, 0⟩) = false
    ∧ CactusDecorator.generate dW quadW rngW ⟨0, 0, 0⟩
        = ⟨Except.ok (), quadW, rngW⟩ :=
  ⟨by decide,
   cactusDecorator_noop_on_unmatched_origin dW quadW rngW ⟨0, 0, 0⟩ (by decide)⟩

/-- C10: for every quad, random stream and position, both
`CactusDecorator::generate` and `PlantDecorator::generate` return `Ok`; the
error case of the `Result` type is unreachable for any configuration. -/
theorem decorators_never_error {B : Type} [DecidableEq B]
    (d : CactusDecorator B) (pd : PlantDecorator B)
    (q : Quad B) (rng : Random) (p : Pos) :
    (CactusDecorator.generate d q rng p).result = Except.ok ()
    ∧ (PlantDecorator.generate pd q rng p).result = Except.ok () := by
  constructor
  · unfold CactusDecorator.generate
    split <;> rfl
  · unfold PlantDecorator.generate
    split
    · rfl
    · split
      · split <;> rfl
      · rfl

/-- Helper: the height distribution under the default settings, evaluated in
closed form. -/
theorem cactusHeightPMF_default_eq (h : Nat) :
    cactusHeightPMF CactusSettings.default h =
      if h = 1 then 11/18 else if h = 2 then 5/18 else if h = 3 then 2/18 else 0 := by
  simp only [cactusHeightPMF, cactusHeight, CactusSettings.default,
    Finset.sum_range_succ, Finset.sum_range_zero]
  norm_num
  by_cases h1 : h = 1 <;> by_cases h2 : h = 2 <;> by_cases h3 : h = 3 <;>
    simp_all [eq_comm] <;> norm_num

/-- C3: when the origin matches `replace`, `generate` makes exactly two draws
in order — the first with bound `add_height + 1`, the second with bound one
more than the first result — advancing the stream cursor by exactly two, and
the growth height is `base_height` plus the second result; this two-stage
sampling is not the single uniform draw over
`[base_height, base_height + add_height]`, whose distribution it provably
differs from. -/
theorem cactusDecorator_two_stage_height {B : Type} [DecidableEq B]
    (d : CactusDecorator B) (q : Quad B) (rng : Random) (p : Pos)
    (h : d.blocks.replace.matches' (q.get p) = true) :
    CactusDecorator.generate d q rng p =
      ⟨Except.ok (),
       cactusGrow d.blocks q p
         (cactusHeight d.settings (rng.stream rng.idx) (rng.stream (rng.idx + 1))),
       ⟨rng.stream, rng.idx + 2⟩⟩
    ∧ cactusHeightPMF CactusSettings.default 1
        ≠ uniformHeightPMF CactusSettings.default 1 := by
  constructor
  · simp [CactusDecorator.generate, Random.next_u32_bound, cactusHeight, h]
  · rw [cactusHeightPMF_default_eq]
    norm_num [uniformHeightPMF, CactusSettings.default]

/-- C3 witness: on the fixture column the origin at `⟨0,1,0⟩` is air, and
`generate` consumes exactly the two draws at cursor 0 and 1. -/
theorem cactusDecorator_two_stage_height_witness :
    dW.blocks.replace.matches' (quadW.get ⟨0, 1, 0⟩) = true
    ∧ (CactusDecorator.generate dW quadW rngW ⟨0, 1, 0⟩ =
        ⟨Except.ok (),
         cactusGrow dW.blocks quadW ⟨0, 1, 0⟩
           (cactusHeight dW.settings (rngW.stream rngW.idx)
             (rngW.stream (rngW.idx + 1))),
         ⟨rngW.stream, rngW.idx + 2⟩⟩
      ∧ cactusHeightPMF CactusSettings.default 1
          ≠ uniformHeightPMF CactusSettings.default 1) :=
  ⟨by decide,
   cactusDecorator_two_stage_height dW quadW rngW ⟨0, 1, 0⟩ (by decide)⟩

/-- C7: for any elevation strictly below sea level (63), the surface produced
by `Stack::surface` has `top = Some(fill)`, whichever of the deep-fill,
beach-band or biome branches produced it. -/
theorem stack_surface_below_sea_level {B : Type} (st : Stack B)
    (blocks : SurfaceBlocks B) (y : Nat) (last : Surface B)
    (h : y < SEA_COORD) :
    (st.surface blocks y last).top
      = Option.some ((st.surface blocks y last).fill) := by
  unfold Stack.surface
  simp [h]

/-- C7 witness: a one-layer sand-beach stack queried at `y = 10 < 63`. -/
theorem stack_surface_below_sea_level_witness :
    10 < SEA_COORD
    ∧ (stackW.surface sblocksW 10 lastW).top
        = Option.some ((stackW.surface sblocksW 10 lastW).fill) :=
  ⟨by decide, stack_surface_below_sea_level stackW sblocksW 10 lastW (by decide)⟩

/-- C8: under the default settings (`base_height = 1`, `add_height = 2`)
every sampled height lies in `{1, 2, 3}`, and the height distribution of the
two-stage draw is exactly `11/18, 5/18, 2/18` on `1, 2, 3` (zero elsewhere),
strictly decreasing rather than uniform. -/
theorem cactusDecorator_default_height_distribution :
    (∀ v1 v2 : Nat, 1 ≤ cactusHeight CactusSettings.default v1 v2
        ∧ cactusHeight CactusSettings.default v1 v2 ≤ 3)
    ∧ (∀ h : Nat, cactusHeightPMF CactusSettings.default h =
        if h = 1 then 11/18 else if h = 2 then 5/18 else if h = 3 then 2/18 else 0)
    ∧ cactusHeightPMF CactusSettings.default 2
        < cactusHeightPMF CactusSettings.default 1
    ∧ cactusHeightPMF CactusSettings.default 3
        < cactusHeightPMF CactusSettings.default 2 := by
  refine ⟨?_, cactusHeightPMF_default_eq, ?_, ?_⟩
  · intro v1 v2
    have h1 : v1 % (2 + 1) < 2 + 1 := Nat.mod_lt _ (by omega)
    have h2 : v2 % (v1 % (2 + 1) + 1) < v1 % (2 + 1) + 1 :=
      Nat.mod_lt _ (by omega)
    simp only [cactusHeight, CactusSettings.default]
    omega
  · rw [cactusHeightPMF_default_eq, cactusHeightPMF_default_eq]; norm_num
  · rw [cactusHeightPMF_default_eq, cactusHeightPMF_default_eq]; norm_num

end I73
